import Mathlib

/-!
Shallow embedding of the GeoNest repository (a thin wrapper around the
ipyleaflet map widget).  The repository ships two variants of the core
`Map` class:

* `src/geonest/map.py`  — the typed, documented implementation (embedded
  below with the plain source names, e.g. `add_basemap`);
* `src/GeoNest/map.py`  — an earlier untyped implementation (embedded
  with a `_v0` suffix, e.g. `add_basemap_v0`).

A map is modelled as an explicit state (`MapState`): center, zoom,
layout height, scroll-wheel flag, ordered layer list and ordered control
list.  Every method returns `MapState × Option PyErr`: the second
component is `some e` when the Python code raises, and the first
component is the state of the map object at the moment of the raise
(in every method of this repository, raises happen before any mutation
of the map).  External collaborators (the basemap registry, the vector
file reader, the raster tile client, leaflet's `fit_bounds`) are passed
in as explicit parameters or modelled from the spec where noted.
-/

namespace GeoNest

/-- Python exception kinds observable from this code. -/
inductive PyErr where
  | valueError
  | attributeError
  | indexError
  | libError
deriving DecidableEq, Repr

/-- An opaque parsed-JSON structure (a Python dict passed through untouched). -/
structure JsonDict where
  raw : Nat
deriving DecidableEq, Repr

/-- Hover style for GeoJSON layers: `{"color": ..., "fillOpacity": ...}`. -/
structure HoverStyle where
  color : String
  fillOpacity : Rat
deriving DecidableEq, Repr

/-- A visual layer attached to the map, identified by kind and parameters. -/
inductive Layer where
  | tile (url : String) (name : String)
  | geojsonLayer (data : JsonDict) (hover_style : HoverStyle)
  | imageOverlay (url : String) (bounds : List (List Rat))
  | videoOverlay (url : String) (bounds : List (List Rat))
  | wmsLayer (url : String) (layerNames : String) (format : String) (transparent : Bool)
deriving DecidableEq, Repr

/-- A UI control attached to the map. -/
inductive Control where
  | layersControl (position : String)
  | widgetControl (widget : Nat) (position : String)
  | basemapSelector (options : List String) (position : String)
deriving DecidableEq, Repr

/-- The observable state of a `Map` facade. -/
structure MapState where
  center : Rat × Rat
  zoom : Nat
  height : String
  scroll_wheel_zoom : Bool
  layers : List Layer
  controls : List Control
deriving DecidableEq, Repr

/-- A method result: the map state plus `some e` when the call raised `e`.
All raises in this repository happen before the map is mutated, so the
state paired with an error is the caller's original state. -/
abbrev PyRes := MapState × Option PyErr

/-!  ## The basemap registry (external collaborator)  -/

/-- A node of the provider registry (`ipyleaflet.basemaps`): either a
tile provider carrying a URL template (`build_url`), or a namespace
bunch holding named children. -/
inductive Provider where
  | leaf (url : String)
  | node (children : List (String × Provider))

/-- Association-list lookup, modelling attribute lookup by name in a bunch. -/
def assocLookup {α : Type} (key : String) : List (String × α) → Option α
  | [] => none
  | (k, v) :: rest => if k = key then some v else assocLookup key rest

/-- Python `getattr(provider, name)` as used on registry objects: succeeds
exactly when the provider is a namespace bunch holding `name`. -/
def getattrProvider : Provider → String → Option Provider
  | .leaf _, _ => none
  | .node cs, name => assocLookup name cs

/-- `provider.build_url()`: available only on tile providers (leaves). -/
def buildUrl : Provider → Option String
  | .leaf url => some url
  | .node _ => none

/-- The `for part in basemap.split("."): provider = getattr(provider, part)`
loop of `geonest.Map.add_basemap`, returning `none` when any segment is
unresolvable (the caught `AttributeError`). -/
def resolvePath (p : Provider) : List String → Option Provider
  | [] => some p
  | s :: rest =>
    match getattrProvider p s with
    | none => none
    | some c => resolvePath c rest

/-- Python `str.split(".")` on the character list: accumulates the current
segment and cuts at every dot. -/
def splitDotAux : List Char → List Char → List (List Char)
  | [], acc => [acc.reverse]
  | c :: cs, acc =>
    if c = '.' then acc.reverse :: splitDotAux cs [] else splitDotAux cs (c :: acc)

/-- Python `basemap.split(".")`. -/
def splitDot (s : String) : List String :=
  (splitDotAux s.data []).map fun l => ⟨l⟩

/-- OpenStreetMap Mapnik tile URL template. -/
def osmMapnikUrl : String := "https://tile.openstreetmap.org/{z}/{x}/{y}.png"

/-- OpenTopoMap tile URL template. -/
def openTopoUrl : String := "https://{s}.tile.opentopomap.org/{z}/{x}/{y}.png"

/-- Esri WorldImagery tile URL template. -/
def esriWorldImageryUrl : String :=
  "https://server.arcgisonline.com/ArcGIS/rest/services/World_Imagery/MapServer/tile/{z}/{y}/{x}"

/-- CartoDB DarkMatter tile URL template. -/
def cartoDarkMatterUrl : String :=
  "https://{s}.basemaps.cartocdn.com/dark_all/{z}/{x}/{y}.png"

/-- Modelled from the spec: the external basemap registry
(`ipyleaflet.basemaps`, an external collaborator not part of this
repository) — "a hierarchical namespace of named tile providers, each
exposing a URL-template builder".  It holds the providers the spec
names (the four default selector options plus the nested namespaces
they live in); `NonExistentBasemap` is absent, as the spec requires. -/
def basemapRegistry : Provider :=
  .node
    [ ("OpenStreetMap", .node [("Mapnik", .leaf osmMapnikUrl)]),
      ("OpenTopoMap", .leaf openTopoUrl),
      ("Esri", .node [("WorldImagery", .leaf esriWorldImageryUrl)]),
      ("CartoDB", .node [("DarkMatter", .leaf cartoDarkMatterUrl)]) ]

/-- Modelled from the spec: the initial base layer that the external map
widget installs when a map is constructed ("the initial base layer"). -/
def defaultBaseLayer : Layer := .tile osmMapnikUrl "OpenStreetMap.Mapnik"

/-!  ## Map construction  -/

/-- `geonest.Map()` with no arguments: center `(20, 0)`, zoom `2`,
height `"600px"`, scroll-wheel zoom enabled; the external widget
supplies one initial base layer and no controls. -/
def mapInit : MapState :=
  { center := (20, 0)
    zoom := 2
    height := "600px"
    scroll_wheel_zoom := true
    layers := [defaultBaseLayer]
    controls := [] }

/-!  ## Basemaps  -/

/-- `geonest.Map.add_basemap` (src/geonest/map.py:59-89): resolve the
possibly dot-separated name through the registry (any unresolvable
segment raises `ValueError`), call `build_url` on the result (raises
`AttributeError` on a namespace bunch), and append one tile layer named
after the requested basemap. -/
def add_basemap (reg : Provider) (m : MapState) (basemap : String) : PyRes :=
  match resolvePath reg (splitDot basemap) with
  | none => (m, some .valueError)
  | some provider =>
    match buildUrl provider with
    | none => (m, some .attributeError)
    | some url => ({ m with layers := m.layers ++ [Layer.tile url basemap] }, none)

/-- `GeoNest.Map.add_basemap` (src/GeoNest/map.py:21-32): `hasattr` with
the whole (possibly dotted) name, `ValueError` when absent, then
`build_url` on the attribute and append one tile layer. -/
def add_basemap_v0 (reg : Provider) (m : MapState) (basemap : String) : PyRes :=
  match getattrProvider reg basemap with
  | none => (m, some .valueError)
  | some provider =>
    match buildUrl provider with
    | none => (m, some .attributeError)
    | some url => ({ m with layers := m.layers ++ [Layer.tile url basemap] }, none)

/-- The dropdown `on_change` callback of `geonest.Map.add_basemap_gui`
(src/geonest/map.py:142-148): when the new value is truthy, remove the
last layer only if more than one layer is present, then `add_basemap`. -/
def on_change (reg : Provider) (m : MapState) (newValue : String) : PyRes :=
  if newValue = "" then (m, none)
  else
    let m1 := if m.layers.length > 1 then { m with layers := m.layers.dropLast } else m
    add_basemap reg m1 newValue

/-- The dropdown `on_change` callback of `GeoNest.Map.add_basemap_gui`
(src/GeoNest/map.py:62-65): when the new value is truthy, drop the last
layer unconditionally (`self.layers = self.layers[:-1]`), then
`add_basemap`. -/
def on_change_v0 (reg : Provider) (m : MapState) (newValue : String) : PyRes :=
  if newValue = "" then (m, none)
  else add_basemap_v0 reg { m with layers := m.layers.dropLast } newValue

/-- Default dropdown options of `add_basemap_gui`. -/
def defaultBasemapOptions : List String :=
  ["OpenStreetMap.Mapnik", "OpenTopoMap", "Esri.WorldImagery", "CartoDB.DarkMatter"]

/-- `geonest.Map.add_basemap_gui` (src/geonest/map.py:91-154): build the
selector widgets (dropdown value `options[0]` raises `IndexError` on an
empty options list) and append one widget control; the callbacks
themselves are modelled separately (`on_change`). -/
def add_basemap_gui (m : MapState) (options : Option (List String))
    (position : String) : PyRes :=
  let opts := options.getD defaultBasemapOptions
  match opts with
  | [] => (m, some .indexError)
  | _ :: _ =>
    ({ m with controls := m.controls ++ [Control.basemapSelector opts position] }, none)

/-!  ## Widgets and controls  -/

/-- `geonest.Map.add_widget` (src/geonest/map.py:160-179): wrap the given
widget in a positioned `WidgetControl` and append it. -/
def add_widget (m : MapState) (widget : Nat) (position : String) : PyRes :=
  ({ m with controls := m.controls ++ [Control.widgetControl widget position] }, none)

/-- `geonest.Map.add_layer_control` (src/geonest/map.py:416-423): append a
`LayersControl` at the given position. -/
def add_layer_control (m : MapState) (position : String) : PyRes :=
  ({ m with controls := m.controls ++ [Control.layersControl position] }, none)

/-!  ## Google Maps  -/

/-- The `types` dict of `add_google_map`. -/
def googleTypes : List (String × String) :=
  [("ROADMAP", "m"), ("SATELLITE", "s"), ("HYBRID", "y"), ("TERRAIN", "p")]

/-- Python `str.upper()` (ASCII, as used on map-type names), applied
characterwise. -/
def pyUpper (s : String) : String := ⟨s.data.map Char.toUpper⟩

/-- Python `str.title()` on the character list: a letter is uppercased
when the previous character is not a letter, lowercased otherwise. -/
def pyTitleAux : Bool → List Char → List Char
  | _, [] => []
  | prevAlpha, c :: cs =>
    (if prevAlpha then c.toLower else c.toUpper) :: pyTitleAux c.isAlpha cs

/-- Python `map_type.title()`. -/
def pyTitle (s : String) : String := ⟨pyTitleAux false s.data⟩

/-- `geonest.Map.add_google_map` (src/geonest/map.py:185-213): uppercase
the requested type, raise `ValueError` when it is not one of the four
known types, otherwise append one Google tile layer named
`"Google " + map_type.title()`. -/
def add_google_map (m : MapState) (map_type : String) : PyRes :=
  let key := pyUpper map_type
  match assocLookup key googleTypes with
  | none => (m, some .valueError)
  | some code =>
    let url := "https://mt1.google.com/vt/lyrs=" ++ code ++ "&x={x}&y={y}&z={z}"
    ({ m with layers := m.layers ++ [Layer.tile url ("Google " ++ pyTitle map_type)] },
      none)

/-!  ## Vector data  -/

/-- An in-memory geospatial table (geopandas `GeoDataFrame`), an external
collaborator: a CRS code, an opaque geometry payload, and the
`total_bounds` box `(minx, miny, maxx, maxy)`. -/
structure GeoDataFrame where
  crs : Nat
  geomTok : Nat
  minx : Rat
  miny : Rat
  maxx : Rat
  maxy : Rat
deriving DecidableEq, Repr

/-- `gdf.to_crs(epsg=...)`: reproject the table to the given CRS. -/
def GeoDataFrame.toCrs (g : GeoDataFrame) (epsg : Nat) : GeoDataFrame :=
  { g with crs := epsg }

/-- `gdf.__geo_interface__`: the table converted to a GeoJSON structure
(a dict determined by the CRS and the geometry payload). -/
def GeoDataFrame.geoInterface (g : GeoDataFrame) : JsonDict :=
  ⟨Nat.pair g.crs g.geomTok⟩

/-- A Python runtime value as dispatched on by the vector-loading methods. -/
inductive PyValue where
  | pystr (s : String)
  | pydict (d : JsonDict)
  | pygdf (g : GeoDataFrame)
  | pylist (xs : List Int)
deriving DecidableEq, Repr

/-- Default hover style `{"color": "yellow", "fillOpacity": 0.3}`. -/
def defaultHoverStyle : HoverStyle := ⟨"yellow", (3 : Rat) / 10⟩

/-- `geonest.Map.add_geojson` (src/geonest/map.py:219-262), parameterised
by the external file reader (`gpd.read_file`, `none` when reading
raises) and leaflet's `fit_bounds` effect (bounds to a new center and
zoom).  A string is read and reprojected to EPSG:4326; a dict is used
as-is; anything else raises `ValueError`.  One GeoJSON layer is
appended; the viewport is refit only when `zoom_to_layer` is set and
the input was a file path. -/
def add_geojson (readFile : String → Option GeoDataFrame)
    (fitBoundsEffect : List (List Rat) → (Rat × Rat) × Nat)
    (m : MapState) (data : PyValue) (zoom_to_layer : Bool)
    (hover_style : Option HoverStyle) : PyRes :=
  let hs := hover_style.getD defaultHoverStyle
  match data with
  | .pystr path =>
    match readFile path with
    | none => (m, some .libError)
    | some g0 =>
      let gdf := g0.toCrs 4326
      let m1 := { m with layers := m.layers ++ [Layer.geojsonLayer gdf.geoInterface hs] }
      if zoom_to_layer then
        let cz := fitBoundsEffect [[gdf.miny, gdf.minx], [gdf.maxy, gdf.maxx]]
        ({ m1 with center := cz.1, zoom := cz.2 }, none)
      else (m1, none)
  | .pydict d =>
    ({ m with layers := m.layers ++ [Layer.geojsonLayer d hs] }, none)
  | _ => (m, some .valueError)

/-- `geonest.Map.add_gdf` (src/geonest/map.py:264-281): reproject the
table to EPSG:4326 and delegate to `add_geojson` with its
`__geo_interface__` dict (the remaining keyword arguments are forwarded). -/
def add_gdf (readFile : String → Option GeoDataFrame)
    (fitBoundsEffect : List (List Rat) → (Rat × Rat) × Nat)
    (m : MapState) (gdf : GeoDataFrame) (zoom_to_layer : Bool)
    (hover_style : Option HoverStyle) : PyRes :=
  let g := gdf.toCrs 4326
  add_geojson readFile fitBoundsEffect m (.pydict g.geoInterface) zoom_to_layer hover_style

/-- `geonest.Map.add_vector` (src/geonest/map.py:283-310): dispatch on
the runtime type — string to `add_geojson`, table to `add_gdf`, dict to
`add_geojson`, anything else raises `ValueError`. -/
def add_vector (readFile : String → Option GeoDataFrame)
    (fitBoundsEffect : List (List Rat) → (Rat × Rat) × Nat)
    (m : MapState) (data : PyValue) (zoom_to_layer : Bool)
    (hover_style : Option HoverStyle) : PyRes :=
  match data with
  | .pystr s =>
    add_geojson readFile fitBoundsEffect m (.pystr s) zoom_to_layer hover_style
  | .pygdf g =>
    add_gdf readFile fitBoundsEffect m g zoom_to_layer hover_style
  | .pydict d =>
    add_geojson readFile fitBoundsEffect m (.pydict d) zoom_to_layer hover_style
  | _ => (m, some .valueError)

/-!  ## Raster and media  -/

/-- The result of `localtileserver.TileClient(filepath)` together with
`get_leaflet_tile_layer`: a tile layer, the computed center and the
default zoom (external collaborator). -/
structure TileClient where
  tileLayer : Layer
  clientCenter : Rat × Rat
  defaultZoom : Nat

/-- `geonest.Map.add_raster` (src/geonest/map.py:316-337), parameterised
by the external tile-client constructor (`none` when it raises): append
the served tile layer, then set center and zoom to the client's values. -/
def add_raster (tileClient : String → Option TileClient)
    (m : MapState) (filepath : String) : PyRes :=
  match tileClient filepath with
  | none => (m, some .libError)
  | some c =>
    ({ m with layers := m.layers ++ [c.tileLayer],
              center := c.clientCenter, zoom := c.defaultZoom }, none)

/-- The default full-world bounds `[[-90, -180], [90, 180]]`. -/
def worldBounds : List (List Rat) := [[-90, -180], [90, 180]]

/-- `geonest.Map.add_image` (src/geonest/map.py:339-356): append an image
overlay anchored to the given bounds, defaulting to the world extent. -/
def add_image (m : MapState) (image : String)
    (bounds : Option (List (List Rat))) : PyRes :=
  let b := bounds.getD worldBounds
  ({ m with layers := m.layers ++ [Layer.imageOverlay image b] }, none)

/-- `geonest.Map.add_video` (src/geonest/map.py:358-375): append a video
overlay anchored to the given bounds, defaulting to the world extent. -/
def add_video (m : MapState) (video : String)
    (bounds : Option (List (List Rat))) : PyRes :=
  let b := bounds.getD worldBounds
  ({ m with layers := m.layers ++ [Layer.videoOverlay video b] }, none)

/-!  ## Services  -/

/-- `geonest.Map.add_wms_layer` (src/geonest/map.py:381-414): append a
WMS layer with the given url, layer names, format and transparency. -/
def add_wms_layer (m : MapState) (url : String) (layerNames : String)
    (format : String) (transparent : Bool) : PyRes :=
  ({ m with layers := m.layers ++ [Layer.wmsLayer url layerNames format transparent] },
    none)

/-!  ## Helper lemmas  -/

/-- `split(".")` of a dot-free string is the one-element list holding it. -/
theorem splitDotAux_no_dot (cs : List Char) :
    ∀ acc : List Char, (∀ c ∈ cs, c ≠ '.') →
      splitDotAux cs acc = [acc.reverse ++ cs] := by
  induction cs with
  | nil => intro acc _; simp [splitDotAux]
  | cons c cs ih =>
    intro acc h
    have hc : ¬ c = '.' := h c (by simp)
    rw [splitDotAux, if_neg hc, ih (c :: acc) (fun x hx => h x (by simp [hx]))]
    simp

/-- `basemap.split(".")` on a dot-free name returns just the name. -/
theorem splitDot_no_dot (s : String) (h : ∀ c ∈ s.data, c ≠ '.') :
    splitDot s = [s] := by
  unfold splitDot
  rw [splitDotAux_no_dot s.data [] h]
  rcases s with ⟨l⟩
  simp

/-- Resolving a one-segment path is a single attribute lookup. -/
theorem resolvePath_single (p : Provider) (s : String) :
    resolvePath p [s] = getattrProvider p s := by
  cases h : getattrProvider p s <;> simp [resolvePath, h]

/-- A method result only appends to the caller's layer and control lists. -/
abbrev growsOnly (m : MapState) (r : PyRes) : Prop :=
  ∃ ls cs, r.1.layers = m.layers ++ ls ∧ r.1.controls = m.controls ++ cs

/-- `add_basemap` only appends. -/
theorem growsOnly_add_basemap (reg : Provider) (m : MapState) (basemap : String) :
    growsOnly m (add_basemap reg m basemap) := by
  unfold add_basemap
  rcases h : resolvePath reg (splitDot basemap) with _ | p
  · exact ⟨[], [], by simp, by simp⟩
  · rcases p with url | cs
    · exact ⟨[Layer.tile url basemap], [], by simp [buildUrl], by simp [buildUrl]⟩
    · exact ⟨[], [], by simp [buildUrl], by simp [buildUrl]⟩

/-- `add_geojson` only appends. -/
theorem growsOnly_add_geojson (readFile : String → Option GeoDataFrame)
    (fitBoundsEffect : List (List Rat) → (Rat × Rat) × Nat)
    (m : MapState) (data : PyValue) (zoom_to_layer : Bool)
    (hover_style : Option HoverStyle) :
    growsOnly m (add_geojson readFile fitBoundsEffect m data zoom_to_layer hover_style) := by
  unfold add_geojson
  rcases data with s | d | g | xs
  · rcases h : readFile s with _ | g0
    · exact ⟨[], [], by simp [h], by simp [h]⟩
    · rcases zoom_to_layer with _ | _
      · exact ⟨[Layer.geojsonLayer (g0.toCrs 4326).geoInterface
            (hover_style.getD defaultHoverStyle)], [], by simp [h], by simp [h]⟩
      · exact ⟨[Layer.geojsonLayer (g0.toCrs 4326).geoInterface
            (hover_style.getD defaultHoverStyle)], [], by simp [h], by simp [h]⟩
  · exact ⟨[Layer.geojsonLayer d (hover_style.getD defaultHoverStyle)], [],
      by simp, by simp⟩
  · exact ⟨[], [], by simp, by simp⟩
  · exact ⟨[], [], by simp, by simp⟩

/-!  ## Claim theorems  -/

/-- Claim C8: constructing a `Map` with no arguments yields center
`(20, 0)`, zoom level `2`, and scroll-wheel zoom enabled. -/
theorem map_default_init_spec :
    mapInit.center = (20, 0) ∧ mapInit.zoom = 2 ∧
      mapInit.scroll_wheel_zoom = true :=
  ⟨rfl, rfl, rfl⟩

/-- Claim C2: `add_basemap` resolves the possibly dot-separated name
against the registry; when any segment is unresolvable it raises
`ValueError` and leaves the layer collection unchanged (in particular
`add_basemap "NonExistentBasemap"` fails against the modelled registry);
when the name resolves to a provider it appends exactly one tile layer
carrying that name and the provider's URL template, and removes or
replaces nothing. -/
theorem add_basemap_notfound_spec :
    (∀ (reg : Provider) (m : MapState) (name : String),
        resolvePath reg (splitDot name) = none →
        add_basemap reg m name = (m, some .valueError)) ∧
    (∀ (reg : Provider) (m : MapState) (name url : String),
        resolvePath reg (splitDot name) = some (.leaf url) →
        add_basemap reg m name
          = ({ m with layers := m.layers ++ [Layer.tile url name] }, none)) ∧
    (∀ m : MapState,
        add_basemap basemapRegistry m "NonExistentBasemap" = (m, some .valueError)) := by
  have p1 : ∀ (reg : Provider) (m : MapState) (name : String),
      resolvePath reg (splitDot name) = none →
      add_basemap reg m name = (m, some .valueError) := by
    intro reg m name h
    simp [add_basemap, h]
  refine ⟨p1, ?_, ?_⟩
  · intro reg m name url h
    simp [add_basemap, h, buildUrl]
  · intro m
    exact p1 basemapRegistry m "NonExistentBasemap" rfl

/-- Claim C2 witness: the theorem applied at concrete inputs — an
unresolvable single-segment name, a resolvable one, and the spec's
`"NonExistentBasemap"`. -/
theorem add_basemap_notfound_spec_witness :
    add_basemap basemapRegistry mapInit "BogusName" = (mapInit, some .valueError) ∧
    add_basemap basemapRegistry mapInit "OpenTopoMap"
      = ({ mapInit with
            layers := mapInit.layers ++ [Layer.tile openTopoUrl "OpenTopoMap"] }, none) ∧
    add_basemap basemapRegistry mapInit "NonExistentBasemap"
      = (mapInit, some .valueError) :=
  ⟨add_basemap_notfound_spec.1 basemapRegistry mapInit "BogusName" rfl,
   add_basemap_notfound_spec.2.1 basemapRegistry mapInit "OpenTopoMap" openTopoUrl rfl,
   add_basemap_notfound_spec.2.2 mapInit⟩

/-- Claim C3 counterexample: the two `add_basemap` implementations are
not observably equivalent — on the dotted name `"Esri.WorldImagery"`
the `geonest` version appends a tile layer while the `GeoNest` version
raises `ValueError` (its `hasattr` uses the whole dotted string as one
attribute name). -/
theorem add_basemap_variants_differ_on_dotted :
    add_basemap basemapRegistry mapInit "Esri.WorldImagery"
      = ({ mapInit with
            layers := mapInit.layers
              ++ [Layer.tile esriWorldImageryUrl "Esri.WorldImagery"] }, none) ∧
    add_basemap_v0 basemapRegistry mapInit "Esri.WorldImagery"
      = (mapInit, some .valueError) := by
  constructor <;> rfl

/-- Claim C3 (amended): the two `add_basemap` implementations agree on
every basemap name that contains no dot — both add the same tile layer
or both raise the same error; they diverge on dot-separated names. -/
theorem add_basemap_variants_agree_undotted (reg : Provider) (m : MapState)
    (name : String) (h : ∀ c ∈ name.data, c ≠ '.') :
    add_basemap reg m name = add_basemap_v0 reg m name := by
  unfold add_basemap add_basemap_v0
  rw [splitDot_no_dot name h, resolvePath_single]

/-- Claim C3 witness: the amended equivalence applied at the dot-free
name `"OpenTopoMap"`. -/
theorem add_basemap_variants_agree_undotted_witness :
    add_basemap basemapRegistry mapInit "OpenTopoMap"
      = add_basemap_v0 basemapRegistry mapInit "OpenTopoMap" :=
  add_basemap_variants_agree_undotted basemapRegistry mapInit "OpenTopoMap" (by decide)

/-- Claim C1 counterexample: in the `GeoNest` variant's selector
(src/GeoNest/map.py:62-65), with exactly one layer present the change
callback still removes it: starting from the freshly constructed map
(one initial base layer), selecting `"OpenTopoMap"` leaves one layer —
the new basemap — and the initial base layer is gone, whereas the claim
predicts no removal (two layers, base layer retained). -/
theorem on_change_v0_single_layer_removes_base :
    mapInit.layers.length = 1 ∧
    on_change_v0 basemapRegistry mapInit "OpenTopoMap"
      = ({ mapInit with layers := [Layer.tile openTopoUrl "OpenTopoMap"] }, none) ∧
    defaultBaseLayer ∉ (on_change_v0 basemapRegistry mapInit "OpenTopoMap").1.layers := by
  refine ⟨rfl, rfl, ?_⟩
  decide

/-- Claim C1 (amended): when the dropdown value changes to a truthy new
name, the `geonest` selector removes the most recently added layer only
when more than one layer is present and otherwise removes nothing, then
calls `add_basemap`; the `GeoNest` selector instead drops the last
layer unconditionally before calling its `add_basemap`, so with exactly
one layer present the initial base layer is removed rather than
stacked upon. -/
theorem basemap_gui_on_change_spec :
    (∀ (reg : Provider) (m : MapState) (v : String),
        v ≠ "" → 1 < m.layers.length →
        on_change reg m v
          = add_basemap reg { m with layers := m.layers.dropLast } v) ∧
    (∀ (reg : Provider) (m : MapState) (v : String),
        v ≠ "" → m.layers.length ≤ 1 →
        on_change reg m v = add_basemap reg m v) ∧
    (∀ (reg : Provider) (m : MapState) (v : String),
        v ≠ "" →
        on_change_v0 reg m v
          = add_basemap_v0 reg { m with layers := m.layers.dropLast } v) := by
  refine ⟨?_, ?_, ?_⟩
  · intro reg m v hv hlen
    simp [on_change, hv, hlen]
  · intro reg m v hv hlen
    simp [on_change, hv, Nat.not_lt.mpr hlen]
  · intro reg m v hv
    simp [on_change_v0, hv]

/-- Claim C1 witness: the three cases applied at concrete inputs — a
two-layer map for the removal case, the fresh one-layer map for the
no-removal case, and the fresh map for the `GeoNest` variant. -/
theorem basemap_gui_on_change_spec_witness :
    on_change basemapRegistry
        { mapInit with
            layers := [defaultBaseLayer, Layer.tile openTopoUrl "OpenTopoMap"] }
        "OpenTopoMap"
      = add_basemap basemapRegistry
          { { mapInit with
                layers := [defaultBaseLayer, Layer.tile openTopoUrl "OpenTopoMap"] } with
              layers := [defaultBaseLayer,
                Layer.tile openTopoUrl "OpenTopoMap"].dropLast }
          "OpenTopoMap" ∧
    on_change basemapRegistry mapInit "OpenTopoMap"
      = add_basemap basemapRegistry mapInit "OpenTopoMap" ∧
    on_change_v0 basemapRegistry mapInit "OpenTopoMap"
      = add_basemap_v0 basemapRegistry
          { mapInit with layers := mapInit.layers.dropLast } "OpenTopoMap" :=
  ⟨basemap_gui_on_change_spec.1 basemapRegistry _ "OpenTopoMap" (by decide) (by decide),
   basemap_gui_on_change_spec.2.1 basemapRegistry mapInit "OpenTopoMap"
     (by decide) (by decide),
   basemap_gui_on_change_spec.2.2 basemapRegistry mapInit "OpenTopoMap" (by decide)⟩

/-- Claim C4: `add_gdf` reprojects the table to EPSG:4326 and delegates
to `add_geojson` with the converted GeoJSON structure; because a
structure (not a file path) is forwarded, no bounding-box fit happens,
so the map's center and zoom are unchanged for every value of
`zoom_to_layer`, and exactly one GeoJSON layer is appended. -/
theorem add_gdf_delegates_no_zoom :
    ∀ (readFile : String → Option GeoDataFrame)
      (fitBoundsEffect : List (List Rat) → (Rat × Rat) × Nat)
      (m : MapState) (gdf : GeoDataFrame) (zoom_to_layer : Bool)
      (hover_style : Option HoverStyle),
    add_gdf readFile fitBoundsEffect m gdf zoom_to_layer hover_style
      = add_geojson readFile fitBoundsEffect m
          (.pydict ((gdf.toCrs 4326).geoInterface)) zoom_to_layer hover_style ∧
    (add_gdf readFile fitBoundsEffect m gdf zoom_to_layer hover_style).1.center
      = m.center ∧
    (add_gdf readFile fitBoundsEffect m gdf zoom_to_layer hover_style).1.zoom
      = m.zoom ∧
    (add_gdf readFile fitBoundsEffect m gdf zoom_to_layer hover_style).2 = none ∧
    (add_gdf readFile fitBoundsEffect m gdf zoom_to_layer hover_style).1.layers
      = m.layers ++ [Layer.geojsonLayer ((gdf.toCrs 4326).geoInterface)
          (hover_style.getD defaultHoverStyle)] := by
  intro readFile fitBoundsEffect m gdf zoom_to_layer hover_style
  exact ⟨rfl, rfl, rfl, rfl, rfl⟩

/-- Claim C5: `add_vector` dispatches by runtime type — a string goes to
`add_geojson`, a GeoDataFrame to `add_gdf`, a dict to `add_geojson`,
and any other value raises `ValueError`; in particular
`add_vector [1, 2, 3]` fails that way. -/
theorem add_vector_dispatch_spec :
    ∀ (readFile : String → Option GeoDataFrame)
      (fitBoundsEffect : List (List Rat) → (Rat × Rat) × Nat)
      (m : MapState) (zoom_to_layer : Bool) (hover_style : Option HoverStyle),
    (∀ s, add_vector readFile fitBoundsEffect m (.pystr s) zoom_to_layer hover_style
        = add_geojson readFile fitBoundsEffect m (.pystr s) zoom_to_layer hover_style) ∧
    (∀ g, add_vector readFile fitBoundsEffect m (.pygdf g) zoom_to_layer hover_style
        = add_gdf readFile fitBoundsEffect m g zoom_to_layer hover_style) ∧
    (∀ d, add_vector readFile fitBoundsEffect m (.pydict d) zoom_to_layer hover_style
        = add_geojson readFile fitBoundsEffect m (.pydict d) zoom_to_layer hover_style) ∧
    (∀ xs, add_vector readFile fitBoundsEffect m (.pylist xs) zoom_to_layer hover_style
        = (m, some .valueError)) ∧
    add_vector readFile fitBoundsEffect m (.pylist [1, 2, 3]) zoom_to_layer hover_style
      = (m, some .valueError) := by
  intro readFile fitBoundsEffect m zoom_to_layer hover_style
  exact ⟨fun s => rfl, fun g => rfl, fun d => rfl, fun xs => rfl, rfl⟩

/-- Claim C6: for every GeoJSON dict, `add_geojson` with
`zoom_to_layer = false` appends exactly one layer and leaves center and
zoom alone; and for dict input no viewport refit happens for any value
of `zoom_to_layer`, since bounds are only known for file-path inputs. -/
theorem add_geojson_dict_frame_spec :
    ∀ (readFile : String → Option GeoDataFrame)
      (fitBoundsEffect : List (List Rat) → (Rat × Rat) × Nat)
      (m : MapState) (d : JsonDict) (hover_style : Option HoverStyle),
    add_geojson readFile fitBoundsEffect m (.pydict d) false hover_style
      = ({ m with layers := m.layers
            ++ [Layer.geojsonLayer d (hover_style.getD defaultHoverStyle)] }, none) ∧
    (add_geojson readFile fitBoundsEffect m (.pydict d) false hover_style).1.layers.length
      = m.layers.length + 1 ∧
    ∀ zoom_to_layer : Bool,
      (add_geojson readFile fitBoundsEffect m (.pydict d) zoom_to_layer
          hover_style).1.center = m.center ∧
      (add_geojson readFile fitBoundsEffect m (.pydict d) zoom_to_layer
          hover_style).1.zoom = m.zoom := by
  intro readFile fitBoundsEffect m d hover_style
  refine ⟨rfl, ?_, fun zoom_to_layer => ⟨rfl, rfl⟩⟩
  simp [add_geojson]

/-- Claim C9: `add_google_map` raises `ValueError` for any map type
whose uppercased form is none of the four known Google types, leaving
the map unchanged — in particular `add_google_map "INVALID"` fails and
adds no layer. -/
theorem add_google_map_invalid_spec :
    (∀ (m : MapState) (map_type : String),
        pyUpper map_type ≠ "ROADMAP" → pyUpper map_type ≠ "SATELLITE" →
        pyUpper map_type ≠ "HYBRID" → pyUpper map_type ≠ "TERRAIN" →
        add_google_map m map_type = (m, some .valueError)) ∧
    (∀ m : MapState, add_google_map m "INVALID" = (m, some .valueError)) := by
  have p1 : ∀ (m : MapState) (map_type : String),
      pyUpper map_type ≠ "ROADMAP" → pyUpper map_type ≠ "SATELLITE" →
      pyUpper map_type ≠ "HYBRID" → pyUpper map_type ≠ "TERRAIN" →
      add_google_map m map_type = (m, some .valueError) := by
    intro m map_type h1 h2 h3 h4
    simp [add_google_map, googleTypes, assocLookup,
      Ne.symm h1, Ne.symm h2, Ne.symm h3, Ne.symm h4]
  refine ⟨p1, fun m => p1 m "INVALID" ?_ ?_ ?_ ?_⟩ <;> decide

/-- Claim C9 witness: the general part applied at the concrete type
`"INVALID"` on the fresh map, with every hypothesis discharged there. -/
theorem add_google_map_invalid_spec_witness :
    add_google_map mapInit "INVALID" = (mapInit, some .valueError) :=
  add_google_map_invalid_spec.1 mapInit "INVALID"
    (by decide) (by decide) (by decide) (by decide)

/-- Claim C10: `add_google_map` is case-insensitive in its map type —
whenever the uppercased argument is one of `ROADMAP`, `SATELLITE`,
`HYBRID`, `TERRAIN`, the call succeeds and appends exactly one Google
tile layer (named `"Google "` plus the title-cased argument). -/
theorem add_google_map_case_insensitive :
    ∀ (m : MapState) (map_type : String),
      (pyUpper map_type = "ROADMAP" ∨ pyUpper map_type = "SATELLITE" ∨
        pyUpper map_type = "HYBRID" ∨ pyUpper map_type = "TERRAIN") →
      ∃ url, add_google_map m map_type
        = ({ m with layers := m.layers
              ++ [Layer.tile url ("Google " ++ pyTitle map_type)] }, none) := by
  intro m map_type h
  rcases h with h | h | h | h
  · exact ⟨"https://mt1.google.com/vt/lyrs=" ++ "m" ++ "&x={x}&y={y}&z={z}",
      by simp [add_google_map, googleTypes, assocLookup, h]⟩
  · exact ⟨"https://mt1.google.com/vt/lyrs=" ++ "s" ++ "&x={x}&y={y}&z={z}",
      by simp [add_google_map, googleTypes, assocLookup, h]⟩
  · exact ⟨"https://mt1.google.com/vt/lyrs=" ++ "y" ++ "&x={x}&y={y}&z={z}",
      by simp [add_google_map, googleTypes, assocLookup, h]⟩
  · exact ⟨"https://mt1.google.com/vt/lyrs=" ++ "p" ++ "&x={x}&y={y}&z={z}",
      by simp [add_google_map, googleTypes, assocLookup, h]⟩

/-- Claim C10 witness: the theorem applied at the lowercase argument
`"roadmap"` on the fresh map. -/
theorem add_google_map_case_insensitive_witness :
    ∃ url, add_google_map mapInit "roadmap"
      = ({ mapInit with layers := mapInit.layers
            ++ [Layer.tile url ("Google " ++ pyTitle "roadmap")] }, none) :=
  add_google_map_case_insensitive mapInit "roadmap" (Or.inl (by decide))

/-- Claim C7: every public `add_*` operation on the `Map` facade
preserves all previously present layers and controls in insertion order
and only appends new entries at the end — for every starting state,
every argument, and every behaviour of the external collaborators,
the resulting layer list is the old list plus a (possibly empty)
suffix, and likewise for controls. -/
theorem add_methods_append_only :
    ∀ (reg : Provider) (readFile : String → Option GeoDataFrame)
      (fitBoundsEffect : List (List Rat) → (Rat × Rat) × Nat)
      (tileClient : String → Option TileClient)
      (m : MapState) (basemap : String) (options : Option (List String))
      (position : String) (widget : Nat) (map_type : String) (data : PyValue)
      (zoom_to_layer : Bool) (hover_style : Option HoverStyle)
      (gdf : GeoDataFrame) (filepath urlStr layerNames fmt img vid : String)
      (transparent : Bool) (bounds : Option (List (List Rat))),
    growsOnly m (add_basemap reg m basemap) ∧
    growsOnly m (add_basemap_gui m options position) ∧
    growsOnly m (add_google_map m map_type) ∧
    growsOnly m (add_geojson readFile fitBoundsEffect m data zoom_to_layer hover_style) ∧
    growsOnly m (add_gdf readFile fitBoundsEffect m gdf zoom_to_layer hover_style) ∧
    growsOnly m (add_vector readFile fitBoundsEffect m data zoom_to_layer hover_style) ∧
    growsOnly m (add_raster tileClient m filepath) ∧
    growsOnly m (add_image m img bounds) ∧
    growsOnly m (add_video m vid bounds) ∧
    growsOnly m (add_wms_layer m urlStr layerNames fmt transparent) ∧
    growsOnly m (add_layer_control m position) ∧
    growsOnly m (add_widget m widget position) := by
  intro reg readFile fitBoundsEffect tileClient m basemap options position widget
    map_type data zoom_to_layer hover_style gdf filepath urlStr layerNames fmt img
    vid transparent bounds
  refine ⟨growsOnly_add_basemap reg m basemap, ?_, ?_,
    growsOnly_add_geojson readFile fitBoundsEffect m data zoom_to_layer hover_style,
    ?_, ?_, ?_, ?_, ?_, ?_, ?_, ?_⟩
  · unfold add_basemap_gui
    rcases h : options.getD defaultBasemapOptions with _ | ⟨o, os⟩
    · exact ⟨[], [], by simp, by simp⟩
    · exact ⟨[], [Control.basemapSelector (o :: os) position], by simp, by simp⟩
  · unfold add_google_map
    rcases h : assocLookup (pyUpper map_type) googleTypes with _ | code
    · exact ⟨[], [], by simp [h], by simp [h]⟩
    · exact ⟨[Layer.tile ("https://mt1.google.com/vt/lyrs=" ++ code
          ++ "&x={x}&y={y}&z={z}") ("Google " ++ pyTitle map_type)], [],
        by simp [h], by simp [h]⟩
  · exact growsOnly_add_geojson readFile fitBoundsEffect m
      (.pydict ((gdf.toCrs 4326).geoInterface)) zoom_to_layer hover_style
  · rcases data with s | d | g | xs
    · exact growsOnly_add_geojson readFile fitBoundsEffect m (.pystr s)
        zoom_to_layer hover_style
    · exact growsOnly_add_geojson readFile fitBoundsEffect m (.pydict d)
        zoom_to_layer hover_style
    · exact growsOnly_add_geojson readFile fitBoundsEffect m
        (.pydict ((g.toCrs 4326).geoInterface)) zoom_to_layer hover_style
    · exact ⟨[], [], by simp [add_vector], by simp [add_vector]⟩
  · unfold add_raster
    rcases h : tileClient filepath with _ | c
    · exact ⟨[], [], by simp, by simp⟩
    · exact ⟨[c.tileLayer], [], by simp, by simp⟩
  · exact ⟨[Layer.imageOverlay img (bounds.getD worldBounds)], [], by simp [add_image],
      by simp [add_image]⟩
  · exact ⟨[Layer.videoOverlay vid (bounds.getD worldBounds)], [], by simp [add_video],
      by simp [add_video]⟩
  · exact ⟨[Layer.wmsLayer urlStr layerNames fmt transparent], [],
      by simp [add_wms_layer], by simp [add_wms_layer]⟩
  · exact ⟨[], [Control.layersControl position], by simp [add_layer_control],
      by simp [add_layer_control]⟩
  · exact ⟨[], [Control.widgetControl widget position], by simp [add_widget],
      by simp [add_widget]⟩
